import Mathlib

/-!
Verification of the EssencialCross in-memory storage layer (`MemStorage`)
and the authorization decisions of the HTTP route layer.

The development is a shallow embedding of the TypeScript sources:

* JavaScript `Map<number, T>` objects are embedded as association lists
  `List (Nat × T)` in insertion order; `Map.get`, `Map.set` and
  `Map.delete` become `mapGet`, `mapSet` and `mapDelete`.
* `Date` values are embedded as `Nat` (epoch milliseconds); every
  operation that calls `new Date()` takes the current clock value as an
  explicit `now` argument.
* `Array.prototype.sort` with a numeric comparator is embedded as the
  stable `List.mergeSort` with the corresponding boolean order.
* Each `MemStorage` method becomes a pure function from (arguments and)
  a `Store` to a result paired with the successor `Store`.
* The route handlers relevant to the claims are embedded as decision
  functions returning the HTTP status code they answer together with
  the successor `Store`.
-/

namespace EC

/-- User roles, from `userRoles` in `shared/schema.ts`. -/
inductive Role where
  | athlete
  | coach
  | admin
deriving DecidableEq

/-- `users` table row (`shared/schema.ts`). -/
structure User where
  id : Nat
  username : String
  password : String
  name : Option String
  email : Option String
  role : Role
  createdAt : Nat
deriving DecidableEq

/-- `workouts` table row. The `type` column is kept as a raw string,
as the store itself performs no enum validation. -/
structure Workout where
  id : Nat
  userId : Nat
  date : Nat
  type : String
  description : String
  result : Option String
  completed : Bool
deriving DecidableEq

/-- `exercises` table row. -/
structure Exercise where
  id : Nat
  name : String
  description : String
  category : String
  videoUrl : Option String
deriving DecidableEq

/-- `personal_records` table row. -/
structure PersonalRecord where
  id : Nat
  userId : Nat
  exerciseId : Nat
  value : String
  unit : String
  date : Nat
  notes : Option String
deriving DecidableEq

/-- `groups` table row. -/
structure Group where
  id : Nat
  name : String
  description : Option String
  coachId : Nat
  createdAt : Nat
deriving DecidableEq

/-- `group_members` table row. -/
structure GroupMember where
  id : Nat
  groupId : Nat
  userId : Nat
  joinedAt : Nat
deriving DecidableEq

/-- `scheduled_workouts` table row. -/
structure ScheduledWorkout where
  id : Nat
  groupId : Nat
  workoutId : Nat
  scheduledDate : Nat
  createdBy : Nat
  createdAt : Nat
deriving DecidableEq

/-- `workout_results` table row. -/
structure WorkoutResult where
  id : Nat
  scheduledWorkoutId : Nat
  userId : Nat
  result : String
  notes : Option String
  completedAt : Nat
deriving DecidableEq

/-- `InsertUser` fields (what `createUser` receives). -/
structure InsertUser where
  username : String
  password : String
  name : Option String
  email : Option String
  role : Role
deriving DecidableEq

/-- `InsertWorkout` fields. -/
structure InsertWorkout where
  userId : Nat
  date : Nat
  type : String
  description : String
  result : Option String
  completed : Bool
deriving DecidableEq

/-- `InsertExercise` fields. -/
structure InsertExercise where
  name : String
  description : String
  category : String
  videoUrl : Option String
deriving DecidableEq

/-- `InsertPersonalRecord` fields. -/
structure InsertPersonalRecord where
  userId : Nat
  exerciseId : Nat
  value : String
  unit : String
  date : Nat
  notes : Option String
deriving DecidableEq

/-- `InsertGroup` fields. -/
structure InsertGroup where
  name : String
  description : Option String
  coachId : Nat
deriving DecidableEq

/-- `InsertGroupMember` fields. -/
structure InsertGroupMember where
  groupId : Nat
  userId : Nat
deriving DecidableEq

/-- `InsertScheduledWorkout` fields. -/
structure InsertScheduledWorkout where
  groupId : Nat
  workoutId : Nat
  scheduledDate : Nat
  createdBy : Nat
deriving DecidableEq

/-- `InsertWorkoutResult` fields. -/
structure InsertWorkoutResult where
  scheduledWorkoutId : Nat
  userId : Nat
  result : String
  notes : Option String
deriving DecidableEq

/-- `Partial<Workout>`: a field is `none` when the key is absent from
the patch object, `some v` when the patch supplies `v`.  The JavaScript
spread merge `{...existing, ...patch}` keeps the existing value exactly
for absent keys. -/
structure WorkoutPatch where
  id : Option Nat
  userId : Option Nat
  date : Option Nat
  type : Option String
  description : Option String
  result : Option (Option String)
  completed : Option Bool
deriving DecidableEq

/-- `Partial<PersonalRecord>`. -/
structure PersonalRecordPatch where
  id : Option Nat
  userId : Option Nat
  exerciseId : Option Nat
  value : Option String
  unit : Option String
  date : Option Nat
  notes : Option (Option String)
deriving DecidableEq

/-- `Partial<Group>`. -/
structure GroupPatch where
  id : Option Nat
  name : Option String
  description : Option (Option String)
  coachId : Option Nat
  createdAt : Option Nat
deriving DecidableEq

/-- `Partial<ScheduledWorkout>`. -/
structure ScheduledWorkoutPatch where
  id : Option Nat
  groupId : Option Nat
  workoutId : Option Nat
  scheduledDate : Option Nat
  createdBy : Option Nat
  createdAt : Option Nat
deriving DecidableEq

/-- `Partial<WorkoutResult>`. -/
structure WorkoutResultPatch where
  id : Option Nat
  scheduledWorkoutId : Option Nat
  userId : Option Nat
  result : Option String
  notes : Option (Option String)
  completedAt : Option Nat
deriving DecidableEq

/-- `Map.prototype.get`: first entry with the given key, if any. -/
def mapGet {α : Type} (m : List (Nat × α)) (k : Nat) : Option α :=
  (m.find? (fun e => e.1 = k)).map Prod.snd

/-- `Map.prototype.set`: replace in place when the key is present,
append otherwise (JavaScript maps keep insertion order). -/
def mapSet {α : Type} (m : List (Nat × α)) (k : Nat) (v : α) : List (Nat × α) :=
  if m.any (fun e => e.1 = k) then
    m.map (fun e => if e.1 = k then (k, v) else e)
  else
    m ++ [(k, v)]

/-- `Map.prototype.delete`: returns whether the key was present,
together with the map with every entry for that key removed. -/
def mapDelete {α : Type} (m : List (Nat × α)) (k : Nat) : Bool × List (Nat × α) :=
  (m.any (fun e => e.1 = k), m.filter (fun e => e.1 ≠ k))

/-- `Map.prototype.values` as a list, in entry order. -/
def mapValues {α : Type} (m : List (Nat × α)) : List α :=
  m.map Prod.snd

/-- A `forEach` loop of `Map.delete` calls over a list of keys. -/
def delMany {α : Type} (m : List (Nat × α)) (ks : List Nat) : List (Nat × α) :=
  ks.foldl (fun acc k => (mapDelete acc k).2) m

/-- The whole `MemStorage` state: the eight entity maps and the eight
per-entity id counters. -/
structure Store where
  users : List (Nat × User)
  workouts : List (Nat × Workout)
  exercises : List (Nat × Exercise)
  personalRecords : List (Nat × PersonalRecord)
  groups : List (Nat × Group)
  groupMembers : List (Nat × GroupMember)
  scheduledWorkouts : List (Nat × ScheduledWorkout)
  workoutResults : List (Nat × WorkoutResult)
  userIdCounter : Nat
  workoutIdCounter : Nat
  exerciseIdCounter : Nat
  prIdCounter : Nat
  groupIdCounter : Nat
  groupMemberIdCounter : Nat
  scheduledWorkoutIdCounter : Nat
  workoutResultIdCounter : Nat
deriving DecidableEq

/-- The `MemStorage` constructor state before `initializeExercises`
runs: all maps empty, all counters 1. -/
def emptyStore : Store :=
  { users := [], workouts := [], exercises := [], personalRecords := []
    groups := [], groupMembers := [], scheduledWorkouts := [], workoutResults := []
    userIdCounter := 1, workoutIdCounter := 1, exerciseIdCounter := 1, prIdCounter := 1
    groupIdCounter := 1, groupMemberIdCounter := 1, scheduledWorkoutIdCounter := 1
    workoutResultIdCounter := 1 }

/-- `MemStorage.getUser`. -/
def getUser (id : Nat) (st : Store) : Option User :=
  mapGet st.users id

/-- `MemStorage.getUserByUsername`. -/
def getUserByUsername (username : String) (st : Store) : Option User :=
  (mapValues st.users).find? (fun u => u.username = username)

/-- `MemStorage.createUser`: `{...insertUser, id, createdAt}`. -/
def createUser (f : InsertUser) (now : Nat) (st : Store) : User × Store :=
  let id := st.userIdCounter
  let user : User :=
    { id := id, username := f.username, password := f.password
      name := f.name, email := f.email, role := f.role, createdAt := now }
  (user, { st with users := mapSet st.users id user, userIdCounter := id + 1 })

/-- `MemStorage.getWorkout`. -/
def getWorkout (id : Nat) (st : Store) : Option Workout :=
  mapGet st.workouts id

/-- `MemStorage.createWorkout`: `{...insertWorkout, id}`. -/
def createWorkout (f : InsertWorkout) (st : Store) : Workout × Store :=
  let id := st.workoutIdCounter
  let workout : Workout :=
    { id := id, userId := f.userId, date := f.date, type := f.type
      description := f.description, result := f.result, completed := f.completed }
  (workout, { st with workouts := mapSet st.workouts id workout, workoutIdCounter := id + 1 })

/-- The spread merge `{...existingWorkout, ...workoutUpdate}`. -/
def mergeWorkout (w : Workout) (p : WorkoutPatch) : Workout :=
  { id := p.id.getD w.id, userId := p.userId.getD w.userId, date := p.date.getD w.date
    type := p.type.getD w.type, description := p.description.getD w.description
    result := p.result.getD w.result, completed := p.completed.getD w.completed }

/-- `MemStorage.updateWorkout`. -/
def updateWorkout (id : Nat) (p : WorkoutPatch) (st : Store) : Option Workout × Store :=
  match mapGet st.workouts id with
  | none => (none, st)
  | some w =>
    let w2 := mergeWorkout w p
    (some w2, { st with workouts := mapSet st.workouts id w2 })

/-- `MemStorage.deleteWorkout`. -/
def deleteWorkout (id : Nat) (st : Store) : Bool × Store :=
  let (ok, m) := mapDelete st.workouts id
  (ok, { st with workouts := m })

/-- `MemStorage.getExercise`. -/
def getExercise (id : Nat) (st : Store) : Option Exercise :=
  mapGet st.exercises id

/-- `MemStorage.getAllExercises`. -/
def getAllExercises (st : Store) : List Exercise :=
  mapValues st.exercises

/-- `MemStorage.getExercisesByCategory`. -/
def getExercisesByCategory (category : String) (st : Store) : List Exercise :=
  (mapValues st.exercises).filter (fun e => e.category = category)

/-- `MemStorage.createExercise`: `{...insertExercise, id}`. -/
def createExercise (f : InsertExercise) (st : Store) : Exercise × Store :=
  let id := st.exerciseIdCounter
  let e : Exercise :=
    { id := id, name := f.name, description := f.description
      category := f.category, videoUrl := f.videoUrl }
  (e, { st with exercises := mapSet st.exercises id e, exerciseIdCounter := id + 1 })

/-- `MemStorage.getPersonalRecord`. -/
def getPersonalRecord (id : Nat) (st : Store) : Option PersonalRecord :=
  mapGet st.personalRecords id

/-- Ascending-date boolean order used by the `(a, b) => a.date - b.date`
comparator on personal records. -/
def prDateLe (a b : PersonalRecord) : Bool :=
  a.date ≤ b.date

/-- Descending-date boolean order used by the `(a, b) => b.date - a.date`
comparator on personal records. -/
def prDateGe (a b : PersonalRecord) : Bool :=
  b.date ≤ a.date

/-- `MemStorage.getPersonalRecordsByUserId`: filter by user, sort by
date descending. -/
def getPersonalRecordsByUserId (userId : Nat) (st : Store) : List PersonalRecord :=
  ((mapValues st.personalRecords).filter (fun pr => pr.userId = userId)).mergeSort prDateGe

/-- `MemStorage.getPersonalRecordsByExerciseId`: filter by user and
exercise, sort by date ascending. -/
def getPersonalRecordsByExerciseId (userId exerciseId : Nat) (st : Store) :
    List PersonalRecord :=
  ((mapValues st.personalRecords).filter
    (fun pr => pr.userId = userId ∧ pr.exerciseId = exerciseId)).mergeSort prDateLe

/-- `MemStorage.getRecentPersonalRecords`: filter by user, sort by date
descending, `slice(0, limit)`. -/
def getRecentPersonalRecords (userId limit : Nat) (st : Store) : List PersonalRecord :=
  (((mapValues st.personalRecords).filter (fun pr => pr.userId = userId)).mergeSort
    prDateGe).take limit

/-- `MemStorage.createPersonalRecord`: `{...insertPR, id}`. -/
def createPersonalRecord (f : InsertPersonalRecord) (st : Store) : PersonalRecord × Store :=
  let id := st.prIdCounter
  let pr : PersonalRecord :=
    { id := id, userId := f.userId, exerciseId := f.exerciseId, value := f.value
      unit := f.unit, date := f.date, notes := f.notes }
  (pr, { st with personalRecords := mapSet st.personalRecords id pr, prIdCounter := id + 1 })

/-- The spread merge `{...existingPR, ...prUpdate}`. -/
def mergePersonalRecord (pr : PersonalRecord) (p : PersonalRecordPatch) : PersonalRecord :=
  { id := p.id.getD pr.id, userId := p.userId.getD pr.userId
    exerciseId := p.exerciseId.getD pr.exerciseId, value := p.value.getD pr.value
    unit := p.unit.getD pr.unit, date := p.date.getD pr.date, notes := p.notes.getD pr.notes }

/-- `MemStorage.updatePersonalRecord`. -/
def updatePersonalRecord (id : Nat) (p : PersonalRecordPatch) (st : Store) :
    Option PersonalRecord × Store :=
  match mapGet st.personalRecords id with
  | none => (none, st)
  | some pr =>
    let pr2 := mergePersonalRecord pr p
    (some pr2, { st with personalRecords := mapSet st.personalRecords id pr2 })

/-- `MemStorage.deletePersonalRecord`. -/
def deletePersonalRecord (id : Nat) (st : Store) : Bool × Store :=
  let (ok, m) := mapDelete st.personalRecords id
  (ok, { st with personalRecords := m })

/-- `MemStorage.getGroup`. -/
def getGroup (id : Nat) (st : Store) : Option Group :=
  mapGet st.groups id

/-- `MemStorage.getGroupsForUser`: groups whose id appears among the
caller's `GroupMember` rows. -/
def getGroupsForUser (userId : Nat) (st : Store) : List Group :=
  let membershipGroups :=
    ((mapValues st.groupMembers).filter (fun m => m.userId = userId)).map
      (fun m => m.groupId)
  (mapValues st.groups).filter (fun g => membershipGroups.contains g.id)

/-- `MemStorage.createGroup`: `{...insertGroup, id, createdAt}`. -/
def createGroup (f : InsertGroup) (now : Nat) (st : Store) : Group × Store :=
  let id := st.groupIdCounter
  let g : Group :=
    { id := id, name := f.name, description := f.description
      coachId := f.coachId, createdAt := now }
  (g, { st with groups := mapSet st.groups id g, groupIdCounter := id + 1 })

/-- The spread merge `{...existingGroup, ...groupUpdate}`. -/
def mergeGroup (g : Group) (p : GroupPatch) : Group :=
  { id := p.id.getD g.id, name := p.name.getD g.name
    description := p.description.getD g.description
    coachId := p.coachId.getD g.coachId, createdAt := p.createdAt.getD g.createdAt }

/-- `MemStorage.updateGroup`. -/
def updateGroup (id : Nat) (p : GroupPatch) (st : Store) : Option Group × Store :=
  match mapGet st.groups id with
  | none => (none, st)
  | some g =>
    let g2 := mergeGroup g p
    (some g2, { st with groups := mapSet st.groups id g2 })

/-- `MemStorage.deleteGroup`: delete every `GroupMember` row whose
`groupId` matches, then every `ScheduledWorkout` row whose `groupId`
matches, then the group row itself. -/
def deleteGroup (id : Nat) (st : Store) : Bool × Store :=
  let members := (mapValues st.groupMembers).filter (fun m => m.groupId = id)
  let gm := delMany st.groupMembers (members.map (fun m => m.id))
  let sws := (mapValues st.scheduledWorkouts).filter (fun w => w.groupId = id)
  let sw := delMany st.scheduledWorkouts (sws.map (fun w => w.id))
  let (ok, gs) := mapDelete st.groups id
  (ok, { st with groupMembers := gm, scheduledWorkouts := sw, groups := gs })

/-- `MemStorage.addGroupMember`: `{...insertMember, id, joinedAt}` —
note: no duplicate-membership check. -/
def addGroupMember (f : InsertGroupMember) (now : Nat) (st : Store) : GroupMember × Store :=
  let id := st.groupMemberIdCounter
  let member : GroupMember :=
    { id := id, groupId := f.groupId, userId := f.userId, joinedAt := now }
  (member,
    { st with groupMembers := mapSet st.groupMembers id member
              groupMemberIdCounter := id + 1 })

/-- `MemStorage.removeGroupMember`: find the first row matching the
(groupId, userId) pair and delete it by its own id. -/
def removeGroupMember (groupId userId : Nat) (st : Store) : Bool × Store :=
  match (mapValues st.groupMembers).find?
      (fun m => m.groupId = groupId ∧ m.userId = userId) with
  | none => (false, st)
  | some member =>
    let (ok, m) := mapDelete st.groupMembers member.id
    (ok, { st with groupMembers := m })

/-- `MemStorage.getGroupMembers`: filter by group, sort by join time
descending. -/
def getGroupMembers (groupId : Nat) (st : Store) : List GroupMember :=
  ((mapValues st.groupMembers).filter (fun m => m.groupId = groupId)).mergeSort
    (fun a b => b.joinedAt ≤ a.joinedAt)

/-- `MemStorage.getScheduledWorkout`. -/
def getScheduledWorkout (id : Nat) (st : Store) : Option ScheduledWorkout :=
  mapGet st.scheduledWorkouts id

/-- `MemStorage.getScheduledWorkoutsByGroupId`: filter by group, sort
by scheduled date ascending. -/
def getScheduledWorkoutsByGroupId (groupId : Nat) (st : Store) : List ScheduledWorkout :=
  ((mapValues st.scheduledWorkouts).filter (fun w => w.groupId = groupId)).mergeSort
    (fun a b => a.scheduledDate ≤ b.scheduledDate)

/-- `MemStorage.createScheduledWorkout`: `{...insertWorkout, id, createdAt}`. -/
def createScheduledWorkout (f : InsertScheduledWorkout) (now : Nat) (st : Store) :
    ScheduledWorkout × Store :=
  let id := st.scheduledWorkoutIdCounter
  let w : ScheduledWorkout :=
    { id := id, groupId := f.groupId, workoutId := f.workoutId
      scheduledDate := f.scheduledDate, createdBy := f.createdBy, createdAt := now }
  (w, { st with scheduledWorkouts := mapSet st.scheduledWorkouts id w
                scheduledWorkoutIdCounter := id + 1 })

/-- The spread merge `{...existingWorkout, ...workoutUpdate}` on a
scheduled workout. -/
def mergeScheduledWorkout (w : ScheduledWorkout) (p : ScheduledWorkoutPatch) :
    ScheduledWorkout :=
  { id := p.id.getD w.id, groupId := p.groupId.getD w.groupId
    workoutId := p.workoutId.getD w.workoutId
    scheduledDate := p.scheduledDate.getD w.scheduledDate
    createdBy := p.createdBy.getD w.createdBy, createdAt := p.createdAt.getD w.createdAt }

/-- `MemStorage.updateScheduledWorkout`. -/
def updateScheduledWorkout (id : Nat) (p : ScheduledWorkoutPatch) (st : Store) :
    Option ScheduledWorkout × Store :=
  match mapGet st.scheduledWorkouts id with
  | none => (none, st)
  | some w =>
    let w2 := mergeScheduledWorkout w p
    (some w2, { st with scheduledWorkouts := mapSet st.scheduledWorkouts id w2 })

/-- `MemStorage.deleteScheduledWorkout`: delete every `WorkoutResult`
row whose `scheduledWorkoutId` matches, then the scheduled-workout row
itself. -/
def deleteScheduledWorkout (id : Nat) (st : Store) : Bool × Store :=
  let results := (mapValues st.workoutResults).filter
    (fun r => r.scheduledWorkoutId = id)
  let wr := delMany st.workoutResults (results.map (fun r => r.id))
  let (ok, m) := mapDelete st.scheduledWorkouts id
  (ok, { st with workoutResults := wr, scheduledWorkouts := m })

/-- `MemStorage.getWorkoutResult`. -/
def getWorkoutResult (id : Nat) (st : Store) : Option WorkoutResult :=
  mapGet st.workoutResults id

/-- `MemStorage.createWorkoutResult`: `{...insertResult, id, completedAt}`. -/
def createWorkoutResult (f : InsertWorkoutResult) (now : Nat) (st : Store) :
    WorkoutResult × Store :=
  let id := st.workoutResultIdCounter
  let r : WorkoutResult :=
    { id := id, scheduledWorkoutId := f.scheduledWorkoutId, userId := f.userId
      result := f.result, notes := f.notes, completedAt := now }
  (r, { st with workoutResults := mapSet st.workoutResults id r
                workoutResultIdCounter := id + 1 })

/-- The spread merge `{...existingResult, ...resultUpdate}`. -/
def mergeWorkoutResult (r : WorkoutResult) (p : WorkoutResultPatch) : WorkoutResult :=
  { id := p.id.getD r.id, scheduledWorkoutId := p.scheduledWorkoutId.getD r.scheduledWorkoutId
    userId := p.userId.getD r.userId, result := p.result.getD r.result
    notes := p.notes.getD r.notes, completedAt := p.completedAt.getD r.completedAt }

/-- `MemStorage.updateWorkoutResult`. -/
def updateWorkoutResult (id : Nat) (p : WorkoutResultPatch) (st : Store) :
    Option WorkoutResult × Store :=
  match mapGet st.workoutResults id with
  | none => (none, st)
  | some r =>
    let r2 := mergeWorkoutResult r p
    (some r2, { st with workoutResults := mapSet st.workoutResults id r2 })

/-- The fixed seed catalog from `MemStorage.initializeExercises`
(`defaultExercises`), in source order. -/
def defaultExercises : List InsertExercise :=
  [ { name := "Back Squat"
      description := "A squat performed with a barbell across the shoulders behind the neck."
      category := "Weightlifting"
      videoUrl := some "https://www.youtube.com/watch?v=ultWZbUMPL8" }
  , { name := "Clean & Jerk"
      description := "Olympic weightlifting movement that combines lifting a barbell from the floor to the shoulders and then overhead."
      category := "Weightlifting"
      videoUrl := some "https://www.youtube.com/watch?v=9HyWjAk7fhY" }
  , { name := "Deadlift"
      description := "A weight training exercise where a loaded barbell is lifted from the ground to hip level."
      category := "Weightlifting"
      videoUrl := some "https://www.youtube.com/watch?v=op9kVnSso6Q" }
  , { name := "Pull-up"
      description := "An upper-body compound exercise where you hang from a bar and pull your body up until your chin is over the bar."
      category := "Gymnastics"
      videoUrl := some "https://www.youtube.com/watch?v=eGo4IYlbE5g" }
  , { name := "Handstand Push-up"
      description := "A push-up performed while in a handstand position with the feet against a wall for balance."
      category := "Gymnastics"
      videoUrl := some "https://www.youtube.com/watch?v=hvoQiF0kBI8" }
  , { name := "Muscle-up"
      description := "A movement that combines a pull-up with a dip to transition from below a bar or rings to above it."
      category := "Gymnastics"
      videoUrl := some "https://www.youtube.com/watch?v=rtF51pQB6Wc" }
  , { name := "Double-Under"
      description := "A jump rope exercise where the rope passes under the feet twice in a single jump."
      category := "Cardio"
      videoUrl := some "https://www.youtube.com/watch?v=82jNjDS19lg" }
  , { name := "Running"
      description := "Continuous movement on foot, used for cardiovascular endurance training."
      category := "Cardio"
      videoUrl := some "https://www.youtube.com/watch?v=brFHyOtTwH4" }
  , { name := "Rowing"
      description := "Exercise on a rowing machine that provides a full-body workout."
      category := "Cardio"
      videoUrl := some "https://www.youtube.com/watch?v=H0r_ZPXJLtg" }
  , { name := "Thruster"
      description := "A compound movement combining a front squat with a push press."
      category := "Metcons"
      videoUrl := some "https://www.youtube.com/watch?v=L219ltL15zk" }
  , { name := "Wall Ball"
      description := "A movement where you throw a medicine ball to a target on the wall from a squat position."
      category := "Metcons"
      videoUrl := some "https://www.youtube.com/watch?v=fpUD0mcFp_0" }
  , { name := "Burpee"
      description := "A full-body exercise that combines a squat, push-up, and jump."
      category := "Metcons"
      videoUrl := some "https://www.youtube.com/watch?v=dZgVxmf6jkA" } ]

/-- `new MemStorage()`: the constructor state after the seed loop
(`defaultExercises.forEach(e => this.createExercise(e))`). -/
def storage : Store :=
  defaultExercises.foldl (fun st f => (createExercise f st).2) emptyStore

/-- The role gate of the `requireCoach` middleware:
`!user || (user.role !== "coach" && user.role !== "admin")` denies. -/
def requireCoachPasses (sessionUserId : Nat) (st : Store) : Bool :=
  match getUser sessionUserId st with
  | none => false
  | some u => u.role = Role.coach ∨ u.role = Role.admin

/-- `user?.role === "admin"` on an optional user lookup. -/
def optIsAdmin (u : Option User) : Bool :=
  match u with
  | none => false
  | some u => u.role = Role.admin

/-- The decision of the `POST /api/workout-results` handler for an
authenticated session user (the `requireAuth` middleware has passed).
Returns the HTTP status code and the successor store.  Mirrors
`server/routes.ts`: falsy-body check (a missing/zero id or empty result
string is falsy), existence check on the scheduled workout, then
member-or-creator-or-admin, then `createWorkoutResult`. -/
def postWorkoutResultRoute (st : Store) (sessionUserId : Nat)
    (scheduledWorkoutId : Nat) (result : String) (notes : Option String)
    (now : Nat) : Nat × Store :=
  if scheduledWorkoutId = 0 ∨ result = "" then (400, st)
  else
    match getScheduledWorkout scheduledWorkoutId st with
    | none => (404, st)
    | some sw =>
      let userGroups := getGroupsForUser sessionUserId st
      let isMember := userGroups.any (fun g => g.id = sw.groupId)
      let isCoach := sw.createdBy = sessionUserId
      let isAdmin := optIsAdmin (getUser sessionUserId st)
      if ¬isMember ∧ ¬isCoach ∧ ¬isAdmin then (403, st)
      else
        let r := createWorkoutResult
          { scheduledWorkoutId := scheduledWorkoutId, userId := sessionUserId
            result := result, notes := notes } now st
        (201, r.2)

/-- The decision of the `POST /api/groups/:groupId/members` handler:
`requireCoach` gate, falsy-body check on `userId`, group existence,
coach-owns-group or admin, target-user existence, then
`addGroupMember` — with no duplicate-membership check. -/
def addGroupMemberRoute (st : Store) (sessionUserId : Nat) (groupId : Nat)
    (userIdBody : Option Nat) (now : Nat) : Nat × Store :=
  if ¬requireCoachPasses sessionUserId st then (403, st)
  else
    match userIdBody with
    | none => (400, st)
    | some userId =>
      if userId = 0 then (400, st)
      else
        match getGroup groupId st with
        | none => (404, st)
        | some group =>
          if group.coachId ≠ sessionUserId ∧ ¬optIsAdmin (getUser sessionUserId st) then
            (403, st)
          else
            match getUser userId st with
            | none => (404, st)
            | some _ =>
              let r := addGroupMember { groupId := groupId, userId := userId } now st
              (201, r.2)

/-- The decision of the `DELETE /api/scheduled-workouts/:id` handler:
`requireCoach` gate, existence check on the scheduled workout, then
creator-or-group-coach-or-admin, then `deleteScheduledWorkout`. -/
def deleteScheduledWorkoutRoute (st : Store) (sessionUserId : Nat) (id : Nat) :
    Nat × Store :=
  if ¬requireCoachPasses sessionUserId st then (403, st)
  else
    match getScheduledWorkout id st with
    | none => (404, st)
    | some sw =>
      let isCreator := sw.createdBy = sessionUserId
      let allowed :=
        if isCreator then true
        else
          let group := getGroup sw.groupId st
          let isGroupCoach :=
            match group with
            | none => false
            | some g => g.coachId = sessionUserId
          if isGroupCoach then true
          else optIsAdmin (getUser sessionUserId st)
      if allowed then
        let r := deleteScheduledWorkout id st
        (200, r.2)
      else (403, st)

theorem mapGet_eq_none_iff {α : Type} (m : List (Nat × α)) (k : Nat) :
    mapGet m k = none ↔ m.any (fun e => e.1 = k) = false := by
  unfold mapGet
  constructor
  · intro h
    rw [Option.map_eq_none'] at h
    rw [List.find?_eq_none] at h
    simp only [List.any_eq_false]
    intro e he
    exact h e he
  · intro h
    rw [Option.map_eq_none', List.find?_eq_none]
    simp only [List.any_eq_false] at h
    exact h

theorem find?_replace {α : Type} (m : List (Nat × α)) (k : Nat) (v : α) :
    (m.map (fun e => if e.1 = k then (k, v) else e)).find? (fun e => e.1 = k) =
      if m.any (fun e => e.1 = k) then some (k, v) else none := by
  induction m with
  | nil => rfl
  | cons e t ih =>
    by_cases h : e.1 = k
    · simp [h]
    · simp only [List.map_cons, List.any_cons]
      rw [if_neg h]
      rw [List.find?_cons_of_neg _ (by simpa using h)]
      rw [ih]
      have hd : (decide (e.1 = k)) = false := by simpa using h
      simp only [hd, Bool.false_or]

theorem find?_append_of_none {α : Type} {p : α → Bool} {l1 l2 : List α}
    (h : l1.find? p = none) : (l1 ++ l2).find? p = l2.find? p := by
  induction l1 with
  | nil => rfl
  | cons a t ih =>
    rw [List.find?_cons] at h
    cases hpa : p a with
    | true => rw [hpa] at h; exact absurd h (by simp)
    | false =>
      rw [hpa] at h
      rw [List.cons_append, List.find?_cons, hpa]
      exact ih h

theorem mapGet_mapSet_self {α : Type} (m : List (Nat × α)) (k : Nat) (v : α) :
    mapGet (mapSet m k v) k = some v := by
  unfold mapGet mapSet
  by_cases h : m.any (fun e => e.1 = k) = true
  · rw [if_pos h, find?_replace, if_pos h]
    rfl
  · rw [if_neg h]
    have hany : m.any (fun e => e.1 = k) = false := Bool.eq_false_iff.mpr h
    rw [List.any_eq_false] at hany
    have hn : m.find? (fun e => decide (e.1 = k)) = none := by
      rw [List.find?_eq_none]
      exact hany
    rw [find?_append_of_none hn]
    rw [List.find?_cons_of_pos _ (by simp)]
    rfl

theorem mapGet_mapDelete_self {α : Type} (m : List (Nat × α)) (k : Nat) :
    mapGet (mapDelete m k).2 k = none := by
  unfold mapGet mapDelete
  rw [Option.map_eq_none', List.find?_eq_none]
  intro e he
  have := List.of_mem_filter he
  simpa using this

theorem mem_delMany {α : Type} (ks : List Nat) :
    ∀ (m : List (Nat × α)) (e : Nat × α), e ∈ delMany m ks → e ∈ m ∧ e.1 ∉ ks := by
  induction ks with
  | nil =>
    intro m e h
    exact ⟨h, by simp⟩
  | cons k t ih =>
    intro m e h
    have h2 : e ∈ (mapDelete m k).2 ∧ e.1 ∉ t := ih _ e h
    have h3 : e ∈ m.filter (fun x => decide (x.1 ≠ k)) := h2.1
    have h4 := List.of_mem_filter h3
    have h5 := List.mem_of_mem_filter h3
    refine ⟨h5, ?_⟩
    intro hmem
    rcases List.mem_cons.mp hmem with h6 | h6
    · exact absurd h6 (by simpa using h4)
    · exact h2.2 h6

/-- The mutating operations of the public `IStorage` interface, as an
operation alphabet for reachability arguments. -/
inductive Op where
  | createUser (f : InsertUser) (now : Nat)
  | createWorkout (f : InsertWorkout)
  | updateWorkout (id : Nat) (p : WorkoutPatch)
  | deleteWorkout (id : Nat)
  | createExercise (f : InsertExercise)
  | createPersonalRecord (f : InsertPersonalRecord)
  | updatePersonalRecord (id : Nat) (p : PersonalRecordPatch)
  | deletePersonalRecord (id : Nat)
  | createGroup (f : InsertGroup) (now : Nat)
  | updateGroup (id : Nat) (p : GroupPatch)
  | deleteGroup (id : Nat)
  | addGroupMember (f : InsertGroupMember) (now : Nat)
  | removeGroupMember (groupId userId : Nat)
  | createScheduledWorkout (f : InsertScheduledWorkout) (now : Nat)
  | updateScheduledWorkout (id : Nat) (p : ScheduledWorkoutPatch)
  | deleteScheduledWorkout (id : Nat)
  | createWorkoutResult (f : InsertWorkoutResult) (now : Nat)
  | updateWorkoutResult (id : Nat) (p : WorkoutResultPatch)

/-- Run one store operation, keeping only the successor state. -/
def applyOp (st : Store) : Op → Store
  | .createUser f now => (createUser f now st).2
  | .createWorkout f => (createWorkout f st).2
  | .updateWorkout id p => (updateWorkout id p st).2
  | .deleteWorkout id => (deleteWorkout id st).2
  | .createExercise f => (createExercise f st).2
  | .createPersonalRecord f => (createPersonalRecord f st).2
  | .updatePersonalRecord id p => (updatePersonalRecord id p st).2
  | .deletePersonalRecord id => (deletePersonalRecord id st).2
  | .createGroup f now => (createGroup f now st).2
  | .updateGroup id p => (updateGroup id p st).2
  | .deleteGroup id => (deleteGroup id st).2
  | .addGroupMember f now => (addGroupMember f now st).2
  | .removeGroupMember g u => (removeGroupMember g u st).2
  | .createScheduledWorkout f now => (createScheduledWorkout f now st).2
  | .updateScheduledWorkout id p => (updateScheduledWorkout id p st).2
  | .deleteScheduledWorkout id => (deleteScheduledWorkout id st).2
  | .createWorkoutResult f now => (createWorkoutResult f now st).2
  | .updateWorkoutResult id p => (updateWorkoutResult id p st).2

/-- Run a whole operation sequence. -/
def applyOps (st : Store) (ops : List Op) : Store :=
  ops.foldl applyOp st

/-- The ids handed out by `createUser` along an operation sequence, in
call order. -/
def assignedUserIds : Store → List Op → List Nat
  | _, [] => []
  | st, op :: ops =>
    match op with
    | .createUser f now => (createUser f now st).1.id :: assignedUserIds (applyOp st op) ops
    | _ => assignedUserIds (applyOp st op) ops

/-- The ids handed out by `createWorkout` along an operation sequence. -/
def assignedWorkoutIds : Store → List Op → List Nat
  | _, [] => []
  | st, op :: ops =>
    match op with
    | .createWorkout f => (createWorkout f st).1.id :: assignedWorkoutIds (applyOp st op) ops
    | _ => assignedWorkoutIds (applyOp st op) ops

/-- The ids handed out by `createExercise` along an operation sequence. -/
def assignedExerciseIds : Store → List Op → List Nat
  | _, [] => []
  | st, op :: ops =>
    match op with
    | .createExercise f => (createExercise f st).1.id :: assignedExerciseIds (applyOp st op) ops
    | _ => assignedExerciseIds (applyOp st op) ops

/-- The ids handed out by `createPersonalRecord` along an operation
sequence. -/
def assignedPrIds : Store → List Op → List Nat
  | _, [] => []
  | st, op :: ops =>
    match op with
    | .createPersonalRecord f =>
      (createPersonalRecord f st).1.id :: assignedPrIds (applyOp st op) ops
    | _ => assignedPrIds (applyOp st op) ops

/-- The ids handed out by `createGroup` along an operation sequence. -/
def assignedGroupIds : Store → List Op → List Nat
  | _, [] => []
  | st, op :: ops =>
    match op with
    | .createGroup f now => (createGroup f now st).1.id :: assignedGroupIds (applyOp st op) ops
    | _ => assignedGroupIds (applyOp st op) ops

/-- The ids handed out by `addGroupMember` along an operation sequence. -/
def assignedGroupMemberIds : Store → List Op → List Nat
  | _, [] => []
  | st, op :: ops =>
    match op with
    | .addGroupMember f now =>
      (addGroupMember f now st).1.id :: assignedGroupMemberIds (applyOp st op) ops
    | _ => assignedGroupMemberIds (applyOp st op) ops

/-- The ids handed out by `createScheduledWorkout` along an operation
sequence. -/
def assignedScheduledWorkoutIds : Store → List Op → List Nat
  | _, [] => []
  | st, op :: ops =>
    match op with
    | .createScheduledWorkout f now =>
      (createScheduledWorkout f now st).1.id :: assignedScheduledWorkoutIds (applyOp st op) ops
    | _ => assignedScheduledWorkoutIds (applyOp st op) ops

/-- The ids handed out by `createWorkoutResult` along an operation
sequence. -/
def assignedWorkoutResultIds : Store → List Op → List Nat
  | _, [] => []
  | st, op :: ops =>
    match op with
    | .createWorkoutResult f now =>
      (createWorkoutResult f now st).1.id :: assignedWorkoutResultIds (applyOp st op) ops
    | _ => assignedWorkoutResultIds (applyOp st op) ops

/-- Does the operation call `createUser`? -/
def isCreateUser : Op → Bool
  | .createUser _ _ => true
  | _ => false

/-- Does the operation call `createWorkout`? -/
def isCreateWorkout : Op → Bool
  | .createWorkout _ => true
  | _ => false

/-- Does the operation call `createExercise`? -/
def isCreateExercise : Op → Bool
  | .createExercise _ => true
  | _ => false

/-- Does the operation call `createPersonalRecord`? -/
def isCreatePr : Op → Bool
  | .createPersonalRecord _ => true
  | _ => false

/-- Does the operation call `createGroup`? -/
def isCreateGroup : Op → Bool
  | .createGroup _ _ => true
  | _ => false

/-- Does the operation call `addGroupMember`? -/
def isAddGroupMember : Op → Bool
  | .addGroupMember _ _ => true
  | _ => false

/-- Does the operation call `createScheduledWorkout`? -/
def isCreateScheduledWorkout : Op → Bool
  | .createScheduledWorkout _ _ => true
  | _ => false

/-- Does the operation call `createWorkoutResult`? -/
def isCreateWorkoutResult : Op → Bool
  | .createWorkoutResult _ _ => true
  | _ => false

theorem applyOp_userIdCounter (st : Store) (op : Op) :
    (applyOp st op).userIdCounter =
      (if isCreateUser op then st.userIdCounter + 1 else st.userIdCounter) := by
  cases op <;>
    simp only [applyOp, isCreateUser, createUser, createWorkout, updateWorkout,
      deleteWorkout, createExercise, createPersonalRecord, updatePersonalRecord,
      deletePersonalRecord, createGroup, updateGroup, deleteGroup, addGroupMember,
      removeGroupMember, createScheduledWorkout, updateScheduledWorkout,
      deleteScheduledWorkout, createWorkoutResult, updateWorkoutResult,
      if_true, if_false] <;>
    (try split) <;>
    first
    | rfl
    | simp_all

theorem applyOp_workoutIdCounter (st : Store) (op : Op) :
    (applyOp st op).workoutIdCounter =
      (if isCreateWorkout op then st.workoutIdCounter + 1 else st.workoutIdCounter) := by
  cases op <;>
    simp only [applyOp, isCreateWorkout, createUser, createWorkout, updateWorkout,
      deleteWorkout, createExercise, createPersonalRecord, updatePersonalRecord,
      deletePersonalRecord, createGroup, updateGroup, deleteGroup, addGroupMember,
      removeGroupMember, createScheduledWorkout, updateScheduledWorkout,
      deleteScheduledWorkout, createWorkoutResult, updateWorkoutResult,
      if_true, if_false] <;>
    (try split) <;>
    first
    | rfl
    | simp_all

theorem applyOp_exerciseIdCounter (st : Store) (op : Op) :
    (applyOp st op).exerciseIdCounter =
      (if isCreateExercise op then st.exerciseIdCounter + 1 else st.exerciseIdCounter) := by
  cases op <;>
    simp only [applyOp, isCreateExercise, createUser, createWorkout, updateWorkout,
      deleteWorkout, createExercise, createPersonalRecord, updatePersonalRecord,
      deletePersonalRecord, createGroup, updateGroup, deleteGroup, addGroupMember,
      removeGroupMember, createScheduledWorkout, updateScheduledWorkout,
      deleteScheduledWorkout, createWorkoutResult, updateWorkoutResult,
      if_true, if_false] <;>
    (try split) <;>
    first
    | rfl
    | simp_all

theorem applyOp_prIdCounter (st : Store) (op : Op) :
    (applyOp st op).prIdCounter =
      (if isCreatePr op then st.prIdCounter + 1 else st.prIdCounter) := by
  cases op <;>
    simp only [applyOp, isCreatePr, createUser, createWorkout, updateWorkout,
      deleteWorkout, createExercise, createPersonalRecord, updatePersonalRecord,
      deletePersonalRecord, createGroup, updateGroup, deleteGroup, addGroupMember,
      removeGroupMember, createScheduledWorkout, updateScheduledWorkout,
      deleteScheduledWorkout, createWorkoutResult, updateWorkoutResult,
      if_true, if_false] <;>
    (try split) <;>
    first
    | rfl
    | simp_all

theorem applyOp_groupIdCounter (st : Store) (op : Op) :
    (applyOp st op).groupIdCounter =
      (if isCreateGroup op then st.groupIdCounter + 1 else st.groupIdCounter) := by
  cases op <;>
    simp only [applyOp, isCreateGroup, createUser, createWorkout, updateWorkout,
      deleteWorkout, createExercise, createPersonalRecord, updatePersonalRecord,
      deletePersonalRecord, createGroup, updateGroup, deleteGroup, addGroupMember,
      removeGroupMember, createScheduledWorkout, updateScheduledWorkout,
      deleteScheduledWorkout, createWorkoutResult, updateWorkoutResult,
      if_true, if_false] <;>
    (try split) <;>
    first
    | rfl
    | simp_all

theorem applyOp_groupMemberIdCounter (st : Store) (op : Op) :
    (applyOp st op).groupMemberIdCounter =
      (if isAddGroupMember op then st.groupMemberIdCounter + 1 else st.groupMemberIdCounter) := by
  cases op <;>
    simp only [applyOp, isAddGroupMember, createUser, createWorkout, updateWorkout,
      deleteWorkout, createExercise, createPersonalRecord, updatePersonalRecord,
      deletePersonalRecord, createGroup, updateGroup, deleteGroup, addGroupMember,
      removeGroupMember, createScheduledWorkout, updateScheduledWorkout,
      deleteScheduledWorkout, createWorkoutResult, updateWorkoutResult,
      if_true, if_false] <;>
    (try split) <;>
    first
    | rfl
    | simp_all

theorem applyOp_scheduledWorkoutIdCounter (st : Store) (op : Op) :
    (applyOp st op).scheduledWorkoutIdCounter =
      (if isCreateScheduledWorkout op then st.scheduledWorkoutIdCounter + 1 else st.scheduledWorkoutIdCounter) := by
  cases op <;>
    simp only [applyOp, isCreateScheduledWorkout, createUser, createWorkout, updateWorkout,
      deleteWorkout, createExercise, createPersonalRecord, updatePersonalRecord,
      deletePersonalRecord, createGroup, updateGroup, deleteGroup, addGroupMember,
      removeGroupMember, createScheduledWorkout, updateScheduledWorkout,
      deleteScheduledWorkout, createWorkoutResult, updateWorkoutResult,
      if_true, if_false] <;>
    (try split) <;>
    first
    | rfl
    | simp_all

theorem applyOp_workoutResultIdCounter (st : Store) (op : Op) :
    (applyOp st op).workoutResultIdCounter =
      (if isCreateWorkoutResult op then st.workoutResultIdCounter + 1 else st.workoutResultIdCounter) := by
  cases op <;>
    simp only [applyOp, isCreateWorkoutResult, createUser, createWorkout, updateWorkout,
      deleteWorkout, createExercise, createPersonalRecord, updatePersonalRecord,
      deletePersonalRecord, createGroup, updateGroup, deleteGroup, addGroupMember,
      removeGroupMember, createScheduledWorkout, updateScheduledWorkout,
      deleteScheduledWorkout, createWorkoutResult, updateWorkoutResult,
      if_true, if_false] <;>
    (try split) <;>
    first
    | rfl
    | simp_all

theorem assignedUserIds_eq (ops : List Op) :
    ∀ st : Store,
      assignedUserIds st ops = List.range' st.userIdCounter (ops.countP isCreateUser) := by
  induction ops with
  | nil => intro st; rfl
  | cons op rest ih =>
    intro st
    have hc := applyOp_userIdCounter st op
    cases op <;>
      simp only [assignedUserIds] <;>
      rw [ih, hc] <;>
      simp [isCreateUser, List.countP_cons, createUser, List.range'_succ]

theorem assignedWorkoutIds_eq (ops : List Op) :
    ∀ st : Store,
      assignedWorkoutIds st ops = List.range' st.workoutIdCounter (ops.countP isCreateWorkout) := by
  induction ops with
  | nil => intro st; rfl
  | cons op rest ih =>
    intro st
    have hc := applyOp_workoutIdCounter st op
    cases op <;>
      simp only [assignedWorkoutIds] <;>
      rw [ih, hc] <;>
      simp [isCreateWorkout, List.countP_cons, createWorkout, List.range'_succ]

theorem assignedExerciseIds_eq (ops : List Op) :
    ∀ st : Store,
      assignedExerciseIds st ops = List.range' st.exerciseIdCounter (ops.countP isCreateExercise) := by
  induction ops with
  | nil => intro st; rfl
  | cons op rest ih =>
    intro st
    have hc := applyOp_exerciseIdCounter st op
    cases op <;>
      simp only [assignedExerciseIds] <;>
      rw [ih, hc] <;>
      simp [isCreateExercise, List.countP_cons, createExercise, List.range'_succ]

theorem assignedPrIds_eq (ops : List Op) :
    ∀ st : Store,
      assignedPrIds st ops = List.range' st.prIdCounter (ops.countP isCreatePr) := by
  induction ops with
  | nil => intro st; rfl
  | cons op rest ih =>
    intro st
    have hc := applyOp_prIdCounter st op
    cases op <;>
      simp only [assignedPrIds] <;>
      rw [ih, hc] <;>
      simp [isCreatePr, List.countP_cons, createPersonalRecord, List.range'_succ]

theorem assignedGroupIds_eq (ops : List Op) :
    ∀ st : Store,
      assignedGroupIds st ops = List.range' st.groupIdCounter (ops.countP isCreateGroup) := by
  induction ops with
  | nil => intro st; rfl
  | cons op rest ih =>
    intro st
    have hc := applyOp_groupIdCounter st op
    cases op <;>
      simp only [assignedGroupIds] <;>
      rw [ih, hc] <;>
      simp [isCreateGroup, List.countP_cons, createGroup, List.range'_succ]

theorem assignedGroupMemberIds_eq (ops : List Op) :
    ∀ st : Store,
      assignedGroupMemberIds st ops = List.range' st.groupMemberIdCounter (ops.countP isAddGroupMember) := by
  induction ops with
  | nil => intro st; rfl
  | cons op rest ih =>
    intro st
    have hc := applyOp_groupMemberIdCounter st op
    cases op <;>
      simp only [assignedGroupMemberIds] <;>
      rw [ih, hc] <;>
      simp [isAddGroupMember, List.countP_cons, addGroupMember, List.range'_succ]

theorem assignedScheduledWorkoutIds_eq (ops : List Op) :
    ∀ st : Store,
      assignedScheduledWorkoutIds st ops = List.range' st.scheduledWorkoutIdCounter (ops.countP isCreateScheduledWorkout) := by
  induction ops with
  | nil => intro st; rfl
  | cons op rest ih =>
    intro st
    have hc := applyOp_scheduledWorkoutIdCounter st op
    cases op <;>
      simp only [assignedScheduledWorkoutIds] <;>
      rw [ih, hc] <;>
      simp [isCreateScheduledWorkout, List.countP_cons, createScheduledWorkout, List.range'_succ]

theorem assignedWorkoutResultIds_eq (ops : List Op) :
    ∀ st : Store,
      assignedWorkoutResultIds st ops = List.range' st.workoutResultIdCounter (ops.countP isCreateWorkoutResult) := by
  induction ops with
  | nil => intro st; rfl
  | cons op rest ih =>
    intro st
    have hc := applyOp_workoutResultIdCounter st op
    cases op <;>
      simp only [assignedWorkoutResultIds] <;>
      rw [ih, hc] <;>
      simp [isCreateWorkoutResult, List.countP_cons, createWorkoutResult, List.range'_succ]

theorem deleteGroup_groupMembers_eq (g : Nat) (st : Store) :
    ((deleteGroup g st).2).groupMembers =
      delMany st.groupMembers
        (((mapValues st.groupMembers).filter (fun m => m.groupId = g)).map
          (fun m => m.id)) := rfl

theorem deleteGroup_scheduledWorkouts_eq (g : Nat) (st : Store) :
    ((deleteGroup g st).2).scheduledWorkouts =
      delMany st.scheduledWorkouts
        (((mapValues st.scheduledWorkouts).filter (fun w => w.groupId = g)).map
          (fun w => w.id)) := rfl

theorem deleteGroup_groups_eq (g : Nat) (st : Store) :
    ((deleteGroup g st).2).groups = (mapDelete st.groups g).2 := rfl

theorem deleteScheduledWorkout_workoutResults_eq (s : Nat) (st : Store) :
    ((deleteScheduledWorkout s st).2).workoutResults =
      delMany st.workoutResults
        (((mapValues st.workoutResults).filter (fun r => r.scheduledWorkoutId = s)).map
          (fun r => r.id)) := rfl

theorem deleteScheduledWorkout_scheduledWorkouts_eq (s : Nat) (st : Store) :
    ((deleteScheduledWorkout s st).2).scheduledWorkouts =
      (mapDelete st.scheduledWorkouts s).2 := rfl

/-- No value with the selected foreign key survives a snapshot-and-delete
cascade pass, provided every entry's stored id agrees with its map key. -/
theorem cascade_removes_all {α : Type} (m : List (Nat × α)) (fk : α → Nat)
    (ident : α → Nat) (g : Nat) (hkey : ∀ e ∈ m, ident e.2 = e.1) :
    ∀ v ∈ mapValues (delMany m (((mapValues m).filter (fun x => fk x = g)).map ident)),
      fk v ≠ g := by
  intro v hv hfk
  rcases List.mem_map.mp hv with ⟨e, he, hev⟩
  have hm := mem_delMany _ m e he
  apply hm.2
  apply List.mem_map.mpr
  refine ⟨e.2, ?_, ?_⟩
  · apply List.mem_filter.mpr
    refine ⟨List.mem_map.mpr ⟨e, hm.1, rfl⟩, by simp [hev, hfk]⟩
  · exact hkey e hm.1

/-- C1: for every group id `g`, `deleteGroup g` leaves no `GroupMember`
row and no `ScheduledWorkout` row whose `groupId` is `g`, and removes
the group row itself; for every scheduled-workout id `s`,
`deleteScheduledWorkout s` leaves no `WorkoutResult` row whose
`scheduledWorkoutId` is `s`, and removes the scheduled-workout row.
The hypotheses state the store's representation invariant that each
entry is keyed by its own id (which every `create` maintains); the
children are deleted in the course of computing the final state, before
the parent row is removed. -/
theorem deleteGroup_scheduledWorkout_cascades (st : Store) (g s : Nat)
    (hgm : ∀ e ∈ st.groupMembers, e.2.id = e.1)
    (hsw : ∀ e ∈ st.scheduledWorkouts, e.2.id = e.1)
    (hwr : ∀ e ∈ st.workoutResults, e.2.id = e.1) :
    (∀ m ∈ mapValues ((deleteGroup g st).2).groupMembers, m.groupId ≠ g)
    ∧ (∀ w ∈ mapValues ((deleteGroup g st).2).scheduledWorkouts, w.groupId ≠ g)
    ∧ getGroup g (deleteGroup g st).2 = none
    ∧ (∀ r ∈ mapValues ((deleteScheduledWorkout s st).2).workoutResults,
        r.scheduledWorkoutId ≠ s)
    ∧ getScheduledWorkout s (deleteScheduledWorkout s st).2 = none := by
  refine ⟨?_, ?_, ?_, ?_, ?_⟩
  · rw [deleteGroup_groupMembers_eq]
    exact cascade_removes_all st.groupMembers (fun m => m.groupId) (fun m => m.id) g hgm
  · rw [deleteGroup_scheduledWorkouts_eq]
    exact cascade_removes_all st.scheduledWorkouts (fun w => w.groupId) (fun w => w.id) g hsw
  · show mapGet ((deleteGroup g st).2).groups g = none
    rw [deleteGroup_groups_eq]
    exact mapGet_mapDelete_self st.groups g
  · rw [deleteScheduledWorkout_workoutResults_eq]
    exact cascade_removes_all st.workoutResults (fun r => r.scheduledWorkoutId)
      (fun r => r.id) s hwr
  · show mapGet ((deleteScheduledWorkout s st).2).scheduledWorkouts s = none
    rw [deleteScheduledWorkout_scheduledWorkouts_eq]
    exact mapGet_mapDelete_self st.scheduledWorkouts s

/-- A concrete store with one group, two group members, one scheduled
workout of the group and one workout result, keyed consistently. -/
def stCascade : Store :=
  { emptyStore with
    groups := [(10, { id := 10, name := "Turma A", description := none
                      coachId := 1, createdAt := 0 })]
    groupMembers :=
      [ (1, { id := 1, groupId := 10, userId := 2, joinedAt := 0 })
      , (2, { id := 2, groupId := 11, userId := 3, joinedAt := 0 }) ]
    scheduledWorkouts :=
      [(1, { id := 1, groupId := 10, workoutId := 1, scheduledDate := 5
             createdBy := 1, createdAt := 0 })]
    workoutResults :=
      [(1, { id := 1, scheduledWorkoutId := 5, userId := 2, result := "ok"
             notes := none, completedAt := 0 })]
    groupIdCounter := 11, groupMemberIdCounter := 3
    scheduledWorkoutIdCounter := 2, workoutResultIdCounter := 2 }

/-- Witness for C1 at the concrete store `stCascade`, group 10 and
scheduled workout 5. -/
theorem deleteGroup_scheduledWorkout_cascades_witness :
    (∀ m ∈ mapValues ((deleteGroup 10 stCascade).2).groupMembers, m.groupId ≠ 10)
    ∧ (∀ w ∈ mapValues ((deleteGroup 10 stCascade).2).scheduledWorkouts, w.groupId ≠ 10)
    ∧ getGroup 10 (deleteGroup 10 stCascade).2 = none
    ∧ (∀ r ∈ mapValues ((deleteScheduledWorkout 5 stCascade).2).workoutResults,
        r.scheduledWorkoutId ≠ 5)
    ∧ getScheduledWorkout 5 (deleteScheduledWorkout 5 stCascade).2 = none :=
  deleteGroup_scheduledWorkout_cascades stCascade 10 5 (by decide) (by decide) (by decide)

/-- C2: `deleteGroup` never touches the `WorkoutResult` collection —
every result row present before the call, including rows referencing a
`ScheduledWorkout` of the deleted group that the cascade removes, is
still present and unmodified afterwards (so the group cascade is not
transitive and can orphan `WorkoutResult` rows). -/
theorem deleteGroup_preserves_workoutResults (st : Store) (g : Nat) :
    ((deleteGroup g st).2).workoutResults = st.workoutResults := rfl

/-- Scheduled workout 5 of group 10, created by user 2. -/
def swCreatedByTwo : ScheduledWorkout :=
  { id := 5, groupId := 10, workoutId := 3, scheduledDate := 100
    createdBy := 2, createdAt := 0 }

/-- A store where user 1 (role coach) is the `coachId` of group 10, but
scheduled workout 5 of that group was created by user 2; user 1 is not
a group member. -/
def stCoach : Store :=
  { emptyStore with
    users := [(1, { id := 1, username := "carla", password := "pw", name := none
                    email := none, role := Role.coach, createdAt := 0 })]
    groups := [(10, { id := 10, name := "Turma A", description := none
                      coachId := 1, createdAt := 0 })]
    scheduledWorkouts := [(5, swCreatedByTwo)]
    userIdCounter := 3, groupIdCounter := 11, scheduledWorkoutIdCounter := 6 }

/-- C3 counterexample: user 1 is the `coachId` of scheduled workout 5's
group (and is authenticated), is not a member and not an admin, yet the
`POST /api/workout-results` handler rejects the submission as 403
forbidden — the handler checks `createdBy`, not the group's `coachId`,
so the claim's "accepted if the user is the coach of the group" fails. -/
theorem postWorkoutResult_group_coach_rejected :
    (getGroup 10 stCoach).map Group.coachId = some 1
    ∧ (getUser 1 stCoach).map User.role = some Role.coach
    ∧ (getScheduledWorkout 5 stCoach).map ScheduledWorkout.groupId = some 10
    ∧ (postWorkoutResultRoute stCoach 1 5 "12:34" none 50).1 = 403 := by
  decide

/-- C3 as amended: for an authenticated user `u`, an existing scheduled
workout and a well-formed body, the submission is accepted if and only
if `u` is a member of the scheduled workout's group (through an
existing `Group` row and a `GroupMember` row), or `u` is the creator
(`createdBy`) of the scheduled workout — not the group's `coachId` —
or `u` has role admin; every other user is rejected as 403 forbidden. -/
theorem postWorkoutResult_accept_iff (st : Store) (u swId : Nat) (res : String)
    (notes : Option String) (now : Nat) (sw : ScheduledWorkout)
    (hsw : getScheduledWorkout swId st = some sw) (h0 : swId ≠ 0) (hres : res ≠ "") :
    ((postWorkoutResultRoute st u swId res notes now).1 = 201 ↔
      ((getGroupsForUser u st).any (fun gr => gr.id = sw.groupId) = true
        ∨ sw.createdBy = u ∨ optIsAdmin (getUser u st) = true))
    ∧ (¬((getGroupsForUser u st).any (fun gr => gr.id = sw.groupId) = true
        ∨ sw.createdBy = u ∨ optIsAdmin (getUser u st) = true) →
      (postWorkoutResultRoute st u swId res notes now).1 = 403) := by
  unfold postWorkoutResultRoute
  rw [if_neg (by push_neg; exact ⟨h0, hres⟩)]
  simp only [hsw]
  by_cases hd : ((getGroupsForUser u st).any (fun gr => gr.id = sw.groupId) = true
      ∨ sw.createdBy = u ∨ optIsAdmin (getUser u st) = true)
  · rw [if_neg (by tauto)]
    exact ⟨by simpa using hd, fun hn => absurd hd hn⟩
  · rw [if_pos (by tauto)]
    exact ⟨by simpa using hd, fun _ => rfl⟩

/-- Witness for the amended C3: user 2 is the creator of scheduled
workout 5 in `stCoach` and is accepted. -/
theorem postWorkoutResult_accept_iff_witness :
    (postWorkoutResultRoute stCoach 2 5 "3 rounds" none 9).1 = 201 :=
  (postWorkoutResult_accept_iff stCoach 2 5 "3 rounds" none 9 swCreatedByTwo
    (by decide) (by decide) (by decide)).1.mpr (Or.inr (Or.inl (by decide)))

/-- A store with a coach (user 1), an athlete (user 2) and group 10
owned by the coach, with no members yet. -/
def stMembers : Store :=
  { emptyStore with
    users :=
      [ (1, { id := 1, username := "carla", password := "pw", name := none
              email := none, role := Role.coach, createdAt := 0 })
      , (2, { id := 2, username := "ana", password := "pw", name := none
              email := none, role := Role.athlete, createdAt := 0 }) ]
    groups := [(10, { id := 10, name := "Turma A", description := none
                      coachId := 1, createdAt := 0 })]
    userIdCounter := 3, groupIdCounter := 11 }

/-- C4: the `POST /api/groups/:groupId/members` path accepts the same
(groupId, userId) pair twice — both calls answer 201 and the store ends
with two distinct `GroupMember` rows for the pair (10, 2), violating the
`uniq_membership` unique index declared on `group_members` in
`shared/schema.ts`. -/
theorem addGroupMemberRoute_duplicates_pair :
    (addGroupMemberRoute stMembers 1 10 (some 2) 100).1 = 201
    ∧ (addGroupMemberRoute ((addGroupMemberRoute stMembers 1 10 (some 2) 100).2)
        1 10 (some 2) 200).1 = 201
    ∧ ((mapValues ((addGroupMemberRoute
          ((addGroupMemberRoute stMembers 1 10 (some 2) 100).2)
          1 10 (some 2) 200).2).groupMembers).filter
        (fun m => m.groupId = 10 ∧ m.userId = 2)).length = 2 := by
  decide

/-- Scheduled workout 1 referencing group 5 (which does not exist),
created by user 3. -/
def swOrphan : ScheduledWorkout :=
  { id := 1, groupId := 5, workoutId := 1, scheduledDate := 10
    createdBy := 3, createdAt := 0 }

/-- A store holding `swOrphan` and a coach-role user 2 who neither
created it nor is an admin; the referenced group 5 is absent. -/
def stOrphan : Store :=
  { emptyStore with
    users := [(2, { id := 2, username := "caio", password := "pw", name := none
                    email := none, role := Role.coach, createdAt := 0 })]
    scheduledWorkouts := [(1, swOrphan)]
    userIdCounter := 3, scheduledWorkoutIdCounter := 2 }

/-- C5 counterexample: scheduled workout 1 exists but its referenced
group 5 has no row; the coach-role requester 2 (neither creator nor
admin) is answered 403 forbidden by `DELETE /api/scheduled-workouts/1`,
not the "not found" the claim requires for this ambiguous state. -/
theorem deleteScheduledWorkoutRoute_orphan_forbidden :
    getGroup 5 stOrphan = none
    ∧ (getScheduledWorkout 1 stOrphan).map ScheduledWorkout.groupId = some 5
    ∧ (deleteScheduledWorkoutRoute stOrphan 2 1).1 = 403 := by
  decide

/-- C5 as amended: for a requester who passes the coach/admin gate, a
missing ScheduledWorkout is answered 404 not-found before any
ownership check; but when the ScheduledWorkout exists while its
referenced Group has been deleted, the handler does not answer
not-found — ownership is still evaluated, succeeding (200) exactly for
the creator or an admin and answering 403 forbidden to everyone else. -/
theorem deleteScheduledWorkoutRoute_decision (st : Store) (u id : Nat)
    (hrole : requireCoachPasses u st = true) :
    (getScheduledWorkout id st = none → (deleteScheduledWorkoutRoute st u id).1 = 404)
    ∧ (∀ sw : ScheduledWorkout, getScheduledWorkout id st = some sw →
        getGroup sw.groupId st = none →
        ((deleteScheduledWorkoutRoute st u id).1 = 200 ↔
          sw.createdBy = u ∨ optIsAdmin (getUser u st) = true)
        ∧ (¬(sw.createdBy = u ∨ optIsAdmin (getUser u st) = true) →
            (deleteScheduledWorkoutRoute st u id).1 = 403)) := by
  constructor
  · intro hmiss
    unfold deleteScheduledWorkoutRoute
    rw [if_neg (by simp [hrole])]
    simp only [hmiss]
  · intro sw hsw hg
    unfold deleteScheduledWorkoutRoute
    rw [if_neg (by simp [hrole])]
    simp only [hsw, hg]
    by_cases hc : sw.createdBy = u
    · rw [if_pos (by simp [hc])]
      exact ⟨by simp [hc], fun hn => absurd (Or.inl hc) hn⟩
    · by_cases ha : optIsAdmin (getUser u st) = true
      · rw [if_pos (by simp [hc, ha])]
        exact ⟨by simp [ha], fun hn => absurd (Or.inr ha) hn⟩
      · rw [if_neg (by simp [hc, ha])]
        refine ⟨⟨fun h => ?_, fun h => ?_⟩, fun _ => rfl⟩
        · exact absurd h (by simp)
        · rcases h with h | h
          · exact absurd h hc
          · exact absurd h ha

/-- Witness for the amended C5 at `stOrphan`: a missing id is answered
404, and the orphaned scheduled workout is answered 403 to the
non-creator non-admin coach. -/
theorem deleteScheduledWorkoutRoute_decision_witness :
    (deleteScheduledWorkoutRoute stOrphan 2 9).1 = 404
    ∧ (deleteScheduledWorkoutRoute stOrphan 2 1).1 = 403 :=
  ⟨(deleteScheduledWorkoutRoute_decision stOrphan 2 9 (by decide)).1 (by decide),
   ((deleteScheduledWorkoutRoute_decision stOrphan 2 1 (by decide)).2 swOrphan
     (by decide) (by decide)).2 (by decide)⟩

theorem prDateLe_trans (a b c : PersonalRecord) :
    prDateLe a b = true → prDateLe b c = true → prDateLe a c = true := by
  unfold prDateLe
  intro h1 h2
  simp only [decide_eq_true_eq] at *
  omega

theorem prDateLe_total (a b : PersonalRecord) :
    (prDateLe a b || prDateLe b a) = true := by
  unfold prDateLe
  simp only [Bool.or_eq_true, decide_eq_true_eq]
  omega

theorem prDateGe_trans (a b c : PersonalRecord) :
    prDateGe a b = true → prDateGe b c = true → prDateGe a c = true := by
  unfold prDateGe
  intro h1 h2
  simp only [decide_eq_true_eq] at *
  omega

theorem prDateGe_total (a b : PersonalRecord) :
    (prDateGe a b || prDateGe b a) = true := by
  unfold prDateGe
  simp only [Bool.or_eq_true, decide_eq_true_eq]
  omega

/-- C6: `getPersonalRecordsByExerciseId` returns exactly the records of
the user for the exercise — a permutation of the filtered collection —
sorted ascending by date (oldest first); `getRecentPersonalRecords`
returns the first `lim` elements of a date-descending (newest first)
arrangement of exactly the user's records. -/
theorem personalRecords_sort_orders (st : Store) (u e lim : Nat) :
    (getPersonalRecordsByExerciseId u e st).Perm
      ((mapValues st.personalRecords).filter
        (fun pr => pr.userId = u ∧ pr.exerciseId = e))
    ∧ (getPersonalRecordsByExerciseId u e st).Sorted (fun a b => a.date ≤ b.date)
    ∧ ∃ l : List PersonalRecord,
        l.Perm ((mapValues st.personalRecords).filter (fun pr => pr.userId = u))
        ∧ l.Sorted (fun a b => b.date ≤ a.date)
        ∧ getRecentPersonalRecords u lim st = l.take lim := by
  refine ⟨?_, ?_, ?_⟩
  · exact List.mergeSort_perm _ prDateLe
  · have h := List.sorted_mergeSort prDateLe_trans prDateLe_total
      ((mapValues st.personalRecords).filter
        (fun pr => pr.userId = u ∧ pr.exerciseId = e))
    unfold List.Sorted
    refine List.Pairwise.imp ?_ h
    intro a b hab
    simpa [prDateLe] using hab
  · refine ⟨((mapValues st.personalRecords).filter
        (fun pr => pr.userId = u)).mergeSort prDateGe, ?_, ?_, ?_⟩
    · exact List.mergeSort_perm _ prDateGe
    · have h := List.sorted_mergeSort prDateGe_trans prDateGe_total
        ((mapValues st.personalRecords).filter (fun pr => pr.userId = u))
      unfold List.Sorted
      refine List.Pairwise.imp ?_ h
      intro a b hab
      simpa [prDateGe] using hab
    · rfl

theorem any_of_mapGet_ne_none {α : Type} {m : List (Nat × α)} {k : Nat}
    (h : mapGet m k ≠ none) : m.any (fun e => e.1 = k) = true := by
  by_contra hc
  exact h ((mapGet_eq_none_iff m k).mpr (Bool.eq_false_iff.mpr hc))

/-- C7: for every entity type, operations on an id absent from the
store return the explicit absent marker and change nothing —
`update` returns `none` and leaves the store untouched (inserts no
row), `delete` returns `false` — while `delete` on a present id
returns `true`, after which `get` on that id returns `none`.  Absence
and presence are phrased through `get` itself, which returns the
explicit `Option` marker (the embedding is total, so no operation can
throw). -/
theorem missing_and_present_id_semantics (st : Store) (ida idp : Nat)
    (wp : WorkoutPatch) (pp : PersonalRecordPatch) (gp : GroupPatch)
    (sp : ScheduledWorkoutPatch) (rp : WorkoutResultPatch)
    (hwa : getWorkout ida st = none) (hwp : getWorkout idp st ≠ none)
    (hpa : getPersonalRecord ida st = none) (hpp : getPersonalRecord idp st ≠ none)
    (hga : getGroup ida st = none) (hgp : getGroup idp st ≠ none)
    (hsa : getScheduledWorkout ida st = none) (hsp : getScheduledWorkout idp st ≠ none)
    (hra : getWorkoutResult ida st = none) :
    updateWorkout ida wp st = (none, st)
    ∧ (deleteWorkout ida st).1 = false
    ∧ (deleteWorkout idp st).1 = true
    ∧ getWorkout idp ((deleteWorkout idp st).2) = none
    ∧ updatePersonalRecord ida pp st = (none, st)
    ∧ (deletePersonalRecord ida st).1 = false
    ∧ (deletePersonalRecord idp st).1 = true
    ∧ getPersonalRecord idp ((deletePersonalRecord idp st).2) = none
    ∧ updateGroup ida gp st = (none, st)
    ∧ (deleteGroup ida st).1 = false
    ∧ (deleteGroup idp st).1 = true
    ∧ getGroup idp ((deleteGroup idp st).2) = none
    ∧ updateScheduledWorkout ida sp st = (none, st)
    ∧ (deleteScheduledWorkout ida st).1 = false
    ∧ (deleteScheduledWorkout idp st).1 = true
    ∧ getScheduledWorkout idp ((deleteScheduledWorkout idp st).2) = none
    ∧ updateWorkoutResult ida rp st = (none, st) := by
  unfold getWorkout at hwa hwp
  unfold getPersonalRecord at hpa hpp
  unfold getGroup at hga hgp
  unfold getScheduledWorkout at hsa hsp
  unfold getWorkoutResult at hra
  refine ⟨?_, ?_, ?_, ?_, ?_, ?_, ?_, ?_, ?_, ?_, ?_, ?_, ?_, ?_, ?_, ?_, ?_⟩
  · unfold updateWorkout; simp only [hwa]
  · exact (mapGet_eq_none_iff st.workouts ida).mp hwa
  · exact any_of_mapGet_ne_none hwp
  · exact mapGet_mapDelete_self st.workouts idp
  · unfold updatePersonalRecord; simp only [hpa]
  · exact (mapGet_eq_none_iff st.personalRecords ida).mp hpa
  · exact any_of_mapGet_ne_none hpp
  · exact mapGet_mapDelete_self st.personalRecords idp
  · unfold updateGroup; simp only [hga]
  · exact (mapGet_eq_none_iff st.groups ida).mp hga
  · exact any_of_mapGet_ne_none hgp
  · exact mapGet_mapDelete_self st.groups idp
  · unfold updateScheduledWorkout; simp only [hsa]
  · exact (mapGet_eq_none_iff st.scheduledWorkouts ida).mp hsa
  · exact any_of_mapGet_ne_none hsp
  · exact mapGet_mapDelete_self st.scheduledWorkouts idp
  · unfold updateWorkoutResult; simp only [hra]

/-- The all-absent patch objects (`{}` bodies). -/
def wpNone : WorkoutPatch := ⟨none, none, none, none, none, none, none⟩

/-- The all-absent personal-record patch. -/
def ppNone : PersonalRecordPatch := ⟨none, none, none, none, none, none, none⟩

/-- The all-absent group patch. -/
def gpNone : GroupPatch := ⟨none, none, none, none, none⟩

/-- The all-absent scheduled-workout patch. -/
def spNone : ScheduledWorkoutPatch := ⟨none, none, none, none, none, none⟩

/-- The all-absent workout-result patch. -/
def rpNone : WorkoutResultPatch := ⟨none, none, none, none, none, none⟩

/-- A store holding exactly one row of each deletable entity type, all
under id 1. -/
def stOne : Store :=
  { emptyStore with
    workouts := [(1, { id := 1, userId := 1, date := 0, type := "AMRAP"
                       description := "d", result := none, completed := false })]
    personalRecords := [(1, { id := 1, userId := 1, exerciseId := 1, value := "100"
                              unit := "kg", date := 0, notes := none })]
    groups := [(1, { id := 1, name := "G", description := none
                     coachId := 1, createdAt := 0 })]
    scheduledWorkouts := [(1, { id := 1, groupId := 1, workoutId := 1
                                scheduledDate := 0, createdBy := 1, createdAt := 0 })]
    workoutResults := [(1, { id := 1, scheduledWorkoutId := 1, userId := 1
                             result := "ok", notes := none, completedAt := 0 })]
    workoutIdCounter := 2, prIdCounter := 2, groupIdCounter := 2
    scheduledWorkoutIdCounter := 2, workoutResultIdCounter := 2 }

/-- Witness for C7 at `stOne` with absent id 99 and present id 1. -/
theorem missing_and_present_id_semantics_witness :
    updateWorkout 99 wpNone stOne = (none, stOne)
    ∧ (deleteGroup 99 stOne).1 = false
    ∧ (deleteScheduledWorkout 1 stOne).1 = true
    ∧ getScheduledWorkout 1 ((deleteScheduledWorkout 1 stOne).2) = none := by
  obtain ⟨h1, h2, h3, h4, h5, h6, h7, h8, h9, h10, h11, h12, h13, h14, h15, h16, h17⟩ :=
    missing_and_present_id_semantics stOne 99 1 wpNone ppNone gpNone spNone rpNone
      (by decide) (by decide) (by decide) (by decide) (by decide) (by decide)
      (by decide) (by decide) (by decide)
  exact ⟨h1, h10, h15, h16⟩

/-- C8: for every entity type and valid input fields, `create` followed
by `get` on the returned entity's id yields exactly the returned entity
— deep equality, including the assigned id (the pre-increment counter)
and the server-set timestamp fields (`createdAt`, `joinedAt`,
`completedAt`, which equal the clock value `now` passed for
`new Date()`).  `GroupMember` has no public single-row getter, so its
round trip is stated through the underlying map lookup. -/
theorem create_then_get (st : Store) (fu : InsertUser) (fw : InsertWorkout)
    (fe : InsertExercise) (fp : InsertPersonalRecord) (fg : InsertGroup)
    (fm : InsertGroupMember) (fs : InsertScheduledWorkout)
    (fr : InsertWorkoutResult) (now : Nat) :
    getUser (createUser fu now st).1.id (createUser fu now st).2
        = some (createUser fu now st).1
    ∧ (createUser fu now st).1.id = st.userIdCounter
    ∧ (createUser fu now st).1.createdAt = now
    ∧ getWorkout (createWorkout fw st).1.id (createWorkout fw st).2
        = some (createWorkout fw st).1
    ∧ getExercise (createExercise fe st).1.id (createExercise fe st).2
        = some (createExercise fe st).1
    ∧ getPersonalRecord (createPersonalRecord fp st).1.id (createPersonalRecord fp st).2
        = some (createPersonalRecord fp st).1
    ∧ getGroup (createGroup fg now st).1.id (createGroup fg now st).2
        = some (createGroup fg now st).1
    ∧ (createGroup fg now st).1.createdAt = now
    ∧ mapGet ((addGroupMember fm now st).2).groupMembers (addGroupMember fm now st).1.id
        = some (addGroupMember fm now st).1
    ∧ (addGroupMember fm now st).1.joinedAt = now
    ∧ getScheduledWorkout (createScheduledWorkout fs now st).1.id
        (createScheduledWorkout fs now st).2 = some (createScheduledWorkout fs now st).1
    ∧ (createScheduledWorkout fs now st).1.createdAt = now
    ∧ getWorkoutResult (createWorkoutResult fr now st).1.id (createWorkoutResult fr now st).2
        = some (createWorkoutResult fr now st).1
    ∧ (createWorkoutResult fr now st).1.completedAt = now := by
  refine ⟨?_, rfl, rfl, ?_, ?_, ?_, ?_, rfl, ?_, rfl, ?_, rfl, ?_, rfl⟩
  · exact mapGet_mapSet_self st.users st.userIdCounter _
  · exact mapGet_mapSet_self st.workouts st.workoutIdCounter _
  · exact mapGet_mapSet_self st.exercises st.exerciseIdCounter _
  · exact mapGet_mapSet_self st.personalRecords st.prIdCounter _
  · exact mapGet_mapSet_self st.groups st.groupIdCounter _
  · exact mapGet_mapSet_self st.groupMembers st.groupMemberIdCounter _
  · exact mapGet_mapSet_self st.scheduledWorkouts st.scheduledWorkoutIdCounter _
  · exact mapGet_mapSet_self st.workoutResults st.workoutResultIdCounter _

/-- C9: along every sequence of public mutating operations started from
the constructor state, each entity type's create operation hands out the
ids `[1, 2, ..., k]` (where `k` is the number of creates of that type in
the sequence), in order: its own counter starts at 1, increments by 1
per create, so every new id is strictly greater than every id ever
assigned for that type and an id is never reused after a delete; the
seeded constructor store is exactly the empty store after the twelve
`createExercise` calls of the seed catalog. -/
theorem id_counters_assign_ranges (ops : List Op) :
    assignedUserIds emptyStore ops = List.range' 1 (ops.countP isCreateUser)
    ∧ assignedWorkoutIds emptyStore ops = List.range' 1 (ops.countP isCreateWorkout)
    ∧ assignedExerciseIds emptyStore ops = List.range' 1 (ops.countP isCreateExercise)
    ∧ assignedPrIds emptyStore ops = List.range' 1 (ops.countP isCreatePr)
    ∧ assignedGroupIds emptyStore ops = List.range' 1 (ops.countP isCreateGroup)
    ∧ assignedGroupMemberIds emptyStore ops = List.range' 1 (ops.countP isAddGroupMember)
    ∧ assignedScheduledWorkoutIds emptyStore ops
        = List.range' 1 (ops.countP isCreateScheduledWorkout)
    ∧ assignedWorkoutResultIds emptyStore ops
        = List.range' 1 (ops.countP isCreateWorkoutResult)
    ∧ (assignedUserIds emptyStore ops).Pairwise (· < ·)
    ∧ (assignedWorkoutIds emptyStore ops).Pairwise (· < ·)
    ∧ (assignedExerciseIds emptyStore ops).Pairwise (· < ·)
    ∧ (assignedPrIds emptyStore ops).Pairwise (· < ·)
    ∧ (assignedGroupIds emptyStore ops).Pairwise (· < ·)
    ∧ (assignedGroupMemberIds emptyStore ops).Pairwise (· < ·)
    ∧ (assignedScheduledWorkoutIds emptyStore ops).Pairwise (· < ·)
    ∧ (assignedWorkoutResultIds emptyStore ops).Pairwise (· < ·)
    ∧ storage = applyOps emptyStore (defaultExercises.map Op.createExercise) := by
  refine ⟨assignedUserIds_eq ops emptyStore, assignedWorkoutIds_eq ops emptyStore,
    assignedExerciseIds_eq ops emptyStore, assignedPrIds_eq ops emptyStore,
    assignedGroupIds_eq ops emptyStore, assignedGroupMemberIds_eq ops emptyStore,
    assignedScheduledWorkoutIds_eq ops emptyStore,
    assignedWorkoutResultIds_eq ops emptyStore, ?_, ?_, ?_, ?_, ?_, ?_, ?_, ?_, ?_⟩
  · rw [assignedUserIds_eq ops emptyStore]; exact List.pairwise_lt_range' 1 _
  · rw [assignedWorkoutIds_eq ops emptyStore]; exact List.pairwise_lt_range' 1 _
  · rw [assignedExerciseIds_eq ops emptyStore]; exact List.pairwise_lt_range' 1 _
  · rw [assignedPrIds_eq ops emptyStore]; exact List.pairwise_lt_range' 1 _
  · rw [assignedGroupIds_eq ops emptyStore]; exact List.pairwise_lt_range' 1 _
  · rw [assignedGroupMemberIds_eq ops emptyStore]; exact List.pairwise_lt_range' 1 _
  · rw [assignedScheduledWorkoutIds_eq ops emptyStore]; exact List.pairwise_lt_range' 1 _
  · rw [assignedWorkoutResultIds_eq ops emptyStore]; exact List.pairwise_lt_range' 1 _
  · rfl

/-- C10: immediately after `new MemStorage()` with no other calls, the
store holds exactly 12 exercises, carrying ids 1 through 12 (they were
inserted through the ordinary `createExercise` operation, as stated by
C9's last conjunct), with exactly 3 in each of the four categories
Weightlifting, Gymnastics, Cardio and Metcons, and nothing else. -/
theorem seed_catalog_shape :
    (getAllExercises storage).length = 12
    ∧ (getAllExercises storage).map Exercise.id = List.range' 1 12
    ∧ ((getAllExercises storage).filter (fun e => e.category = "Weightlifting")).length = 3
    ∧ ((getAllExercises storage).filter (fun e => e.category = "Gymnastics")).length = 3
    ∧ ((getAllExercises storage).filter (fun e => e.category = "Cardio")).length = 3
    ∧ ((getAllExercises storage).filter (fun e => e.category = "Metcons")).length = 3
    ∧ (∀ e ∈ getAllExercises storage,
        e.category = "Weightlifting" ∨ e.category = "Gymnastics"
        ∨ e.category = "Cardio" ∨ e.category = "Metcons")
    ∧ storage.users = [] ∧ storage.workouts = [] ∧ storage.personalRecords = []
    ∧ storage.groups = [] ∧ storage.groupMembers = []
    ∧ storage.scheduledWorkouts = [] ∧ storage.workoutResults = []
    ∧ storage.exerciseIdCounter = 13 := by
  decide

end EC
